import Mathlib

/-
Verification of the SmarTriage Gantt date/filter core.

Shallow embedding of the three Python source files:
  app.py               : `calculate_progress`, `load_data`, view-range selection
  gantt_app.py         : same pipeline as app.py (differs only in omitting the
                         `Uncategorized` fill for blank categories, and in
                         clearing the cache on every run)
  send_gantt_summary.py: `create_task_report` (email variant: coercing parses,
                         clamped finish, week buckets) and `format_tasks_to_html`

Modelling choices:
  - Calendar dates are whole days since 1970-01-01 (`Int := Int`); pandas
    timestamps in this pipeline always carry a zero time component.  Civil
    (year, month, day) conversion is provided so that concrete scenarios can
    be stated with real dates, and so that `replace(day=1)` can be modelled.
  - Spreadsheet cells are `blank` (NaN), a parsed date, a parsed number, or
    `malformed` (a value that `pd.to_datetime` / `pd.to_numeric` rejects).
  - A data frame is a list of effective column names (after the
    `dropna(how='all', axis=1)` / header-strip cleanup) plus a list of rows.
  - Durations are integers (the data model's duration-in-days); progress is
    an exact rational standing for the Python float.
-/

namespace SmarTriage

/-- Days since 1970-01-01 of the civil date y-m-d (proleptic Gregorian).
Standard civil-from-days arithmetic; all divisions are floor divisions,
which is what Lean's `Int` division performs for positive divisors. -/
def daysFromCivil (y m d : Int) : Int :=
  let yAdj := if m ≤ 2 then y - 1 else y
  let era := yAdj / 400
  let yoe := yAdj - era * 400
  let mp := (m + 9) % 12
  let doy := (153 * mp + 2) / 5 + d - 1
  let doe := yoe * 365 + yoe / 4 - yoe / 100 + doy
  era * 146097 + doe - 719468

/-- Civil (year, month, day) of a day count since 1970-01-01; inverse of
`daysFromCivil`. -/
def civilFromDays (z : Int) : Int × Int × Int :=
  let z2 := z + 719468
  let era := z2 / 146097
  let doe := z2 - era * 146097
  let yoe := (doe - doe / 1460 + doe / 36524 - doe / 146096) / 365
  let y := yoe + era * 400
  let doy := doe - (365 * yoe + yoe / 4 - yoe / 100)
  let mp := (5 * doy + 2) / 153
  let d := doy - (153 * mp + 2) / 5 + 1
  let m := mp + (if mp < 10 then 3 else -9)
  (if m ≤ 2 then y + 1 else y, m, d)

/-- Model of `timestamp.replace(day=1)`: the first day of the month of `t`. -/
def firstOfMonth (t : Int) : Int :=
  let c := civilFromDays t
  daysFromCivil c.1 c.2.1 1

/-- Model of pandas `Timestamp.dayofweek` / Python `date.weekday()`:
Monday = 0 .. Sunday = 6.  1970-01-01 was a Thursday (= 3). -/
def weekday (t : Int) : Int := (t + 3) % 7

/-- Model of `calculate_progress` (app.py lines 52-64, gantt_app.py lines
31-50; both bodies are identical).  `days_passed = (today - start).days + 1`
is inlined into the returned expression. -/
def calculate_progress (start duration today : Int) : ℚ :=
  if today < start then 0
  else if duration ≤ 0 then 0
  else min ((((today - start) + 1 : Int) : ℚ) / (duration : ℚ)) 1 * 100

/-- One spreadsheet cell as the loaders see it: missing (NaN), a value the
relevant parser accepts (`date` for the Start column, `num` for the Days
column), or a present value the parser rejects. -/
inductive Cell where
  | blank
  | date (d : Int)
  | num (n : Int)
  | malformed
deriving DecidableEq, Repr

/-- A cell is present (non-NaN, so it survives `dropna(subset=...)`). -/
def Cell.present : Cell → Bool
  | .blank => false
  | _ => true

/-- One input row restricted to the columns the pipelines use. -/
structure RawRow where
  name : Option String
  category : Option String
  start : Cell
  days : Cell
deriving DecidableEq, Repr

/-- A row that `dropna(how='all')` removes: every field missing. -/
def RawRow.allBlank (r : RawRow) : Bool :=
  r.name.isNone && r.category.isNone && !r.start.present && !r.days.present

/-- Strict conversion succeeds on this row: `pd.to_datetime(Start)` and
`pd.to_numeric(Days)` (app.py lines 104-105, no `errors='coerce'`) raise no
exception.  Blank cells convert to NaT/NaN without raising. -/
def RawRow.convertible (r : RawRow) : Bool :=
  (match r.start with
   | .date _ => true
   | .blank => true
   | _ => false) &&
  (match r.days with
   | .num _ => true
   | .blank => true
   | _ => false)

/-- Int payload of a cell (only used under a `present`/`convertible` guard). -/
def Cell.dateValue : Cell → Int
  | .date d => d
  | _ => 0

/-- Numeric payload of a cell (only used under a guard). -/
def Cell.numValue : Cell → Int
  | .num n => n
  | _ => 0

/-- Model of `pd.to_datetime(col, errors='coerce')` on one cell
(send_gantt_summary.py line 57): malformed or blank becomes missing. -/
def Cell.coerceDate : Cell → Option Int
  | .date d => some d
  | _ => none

/-- Model of `pd.to_numeric(col, errors='coerce')` on one cell
(send_gantt_summary.py line 58). -/
def Cell.coerceNum : Cell → Option Int
  | .num n => some n
  | _ => none

/-- Chart variants' finish derivation (app.py line 106, gantt_app.py lines
90-93): `Start + timedelta(days=Duration)`, no clamping. -/
def deriveFinishChart (s d : Int) : Int := s + d

/-- Email variant's finish derivation (send_gantt_summary.py line 61):
`Start + timedelta(days=max(0, Days - 1))`. -/
def deriveFinishEmail (s d : Int) : Int := s + max 0 (d - 1)

/-- Category cleanup of the chart pipeline: `fillna('Uncategorized')`
(app.py line 101) followed by `.str.replace('\n', ' ').str.strip()`
(app.py line 114).  gantt_app.py performs only the replace/strip step. -/
def cleanupCategory (c : Option String) : String :=
  ((c.getD "Uncategorized").replace "\n" " ").trim

/-- Rounding used by `Progress.round(0)` (numpy round-half-to-even). -/
def roundHalfEven (q : ℚ) : Int :=
  let f := ⌊q⌋
  if q - f < 1 / 2 then f
  else if q - f > 1 / 2 then f + 1
  else if f % 2 = 0 then f else f + 1

/-- The task label with the appended percentage (app.py line 111).  A NaN
task name stays NaN under pandas string concatenation, hence `Option.map`. -/
def progressLabel (name : Option String) (p : ℚ) : Option String :=
  name.map (fun s => s ++ " (" ++ toString (roundHalfEven p) ++ "%)")

/-- One row of the processed chart table (`df_gantt`). -/
structure Task where
  task : Option String
  resource : String
  start : Int
  duration : Int
  finish : Int
  progress : ℚ
deriving DecidableEq, Repr

/-- Outcome of the chart loaders: the distinct reported conditions and the
processed table.  `loadError` is the generic `except Exception` branch
(app.py lines 121-123), which a strict-conversion failure lands in. -/
inductive LoadResult (α : Type) where
  | missingColumns
  | noValidTasks
  | loadError
  | ok (tasks : List α)
deriving DecidableEq, Repr

/-- Tasks of a load outcome (empty on every error outcome). -/
def LoadResult.tasks {α : Type} : LoadResult α → List α
  | .ok ts => ts
  | _ => []

/-- Map over the tasks of a load outcome. -/
def LoadResult.mapTasks {α β : Type} (f : α → β) : LoadResult α → LoadResult β
  | .ok ts => .ok (ts.map f)
  | .missingColumns => .missingColumns
  | .noValidTasks => .noValidTasks
  | .loadError => .loadError

/-- The essential columns checked by both chart loaders (app.py line 80). -/
def requiredCols : List String := ["Milestone description", "Category", "Start", "Days"]

/-- Model of `load_data` (app.py lines 66-123; gantt_app.py lines 53-114 is
the same pipeline without the category fill).  `cols` is the effective
column list after the blank-column drop and header strip, `rows` the rows
after reading, `today` the date sampled inside the cached function
(app.py line 109).  Pipeline order follows the source: column check, blank
cleanup, `dropna(subset=['Start','Days'])`, emptiness check, strict type
conversion (a malformed value raises and is caught, yielding `loadError`),
then finish/progress/label/category derivation. -/
def load_data (cols : List String) (rows : List RawRow) (today : Int) :
    LoadResult Task :=
  if requiredCols.all (fun c => cols.contains c) then
    let cleaned := rows.filter (fun r => !r.allBlank)
    let valid := cleaned.filter (fun r => r.start.present && r.days.present)
    if valid.isEmpty then .noValidTasks
    else if valid.all RawRow.convertible then
      .ok (valid.map (fun r =>
        let s := r.start.dateValue
        let d := r.days.numValue
        let p := calculate_progress s d today
        { task := progressLabel r.name p
          resource := cleanupCategory r.category
          start := s
          duration := d
          finish := deriveFinishChart s d
          progress := p }))
    else .loadError
  else .missingColumns

/-- The essential columns of the email variant (send_gantt_summary.py
line 48): no Category column. -/
def relevantColsEmail : List String := ["Milestone description", "Start", "Days"]

/-- One row of the email variant's processed table. -/
structure EmailTask where
  name : Option String
  start : Int
  days : Int
  finish : Int
deriving DecidableEq, Repr

/-- Coercing parse of one surviving row (send_gantt_summary.py lines 57-61):
`errors='coerce'` turns a malformed Start or Days into a missing value, the
second `dropna` drops such rows, and the clamped finish is derived. -/
def parseEmailRow (r : RawRow) : Option EmailTask :=
  match r.start.coerceDate, r.days.coerceNum with
  | some s, some d => some { name := r.name, start := s, days := d,
                             finish := deriveFinishEmail s d }
  | _, _ => none

/-- Model of the data-loading part of `create_task_report`
(send_gantt_summary.py lines 42-61): column check (`none` models the
`return None` on a reported missing-column error), blank cleanup, first
`dropna(subset=['Start','Days'])`, then coerce-and-drop per row. -/
def create_task_report_tasks (cols : List String) (rows : List RawRow) :
    Option (List EmailTask) :=
  if relevantColsEmail.all (fun c => cols.contains c) then
    let cleaned := rows.filter (fun r => !r.allBlank)
    let valid := cleaned.filter (fun r => r.start.present && r.days.present)
    some (valid.filterMap parseEmailRow)
  else none

/-- Monday of `today`'s week (send_gantt_summary.py line 64):
`TODAY - to_timedelta(TODAY.dayofweek)`. -/
def startOfWeek (today : Int) : Int := today - weekday today

/-- Sunday of `today`'s week (send_gantt_summary.py line 65). -/
def endOfWeek (today : Int) : Int := startOfWeek today + 6

/-- Bucket `tasks_active_today` (send_gantt_summary.py line 67). -/
def tasks_active_today (df : List EmailTask) (today : Int) : List EmailTask :=
  df.filter (fun t => decide (t.start ≤ today) && decide (t.finish ≥ today))

/-- Bucket `tasks_ending_today` (line 68); dates are whole days here, so the
`.dt.date` comparison is plain equality. -/
def tasks_ending_today (df : List EmailTask) (today : Int) : List EmailTask :=
  df.filter (fun t => decide (t.finish = today))

/-- Bucket `tasks_starting_today` (line 69). -/
def tasks_starting_today (df : List EmailTask) (today : Int) : List EmailTask :=
  df.filter (fun t => decide (t.start = today))

/-- Bucket `tasks_ending_this_week` (line 70). -/
def tasks_ending_this_week (df : List EmailTask) (today : Int) : List EmailTask :=
  df.filter (fun t =>
    decide (t.finish ≥ startOfWeek today) && decide (t.finish ≤ endOfWeek today))

/-- Bucket `tasks_starting_this_week` (line 71). -/
def tasks_starting_this_week (df : List EmailTask) (today : Int) : List EmailTask :=
  df.filter (fun t =>
    decide (t.start ≥ startOfWeek today) && decide (t.start ≤ endOfWeek today))

/-- Bucket `tasks_active_this_week` (line 72): interval overlap. -/
def tasks_active_this_week (df : List EmailTask) (today : Int) : List EmailTask :=
  df.filter (fun t =>
    decide (t.start ≤ endOfWeek today) && decide (t.finish ≥ startOfWeek today))

/-- Order on email tasks used by `sort_values(by='Start')`. -/
def startLE (a b : EmailTask) : Prop := a.start ≤ b.start

instance : DecidableRel startLE := fun a b => Int.decLe a.start b.start

instance : IsTotal EmailTask startLE := ⟨fun a b => Int.le_total a.start b.start⟩

instance : IsTrans EmailTask startLE := ⟨fun _ _ _ h h2 => Int.le_trans h h2⟩

/-- One rendered `<tr>` of the report table, abstracted to its fields. -/
structure HtmlRow where
  task : String
  start : Int
  finish : Int
deriving DecidableEq, Repr

/-- Rendering of one task row (send_gantt_summary.py lines 29-30): a NaN
name becomes the placeholder `"Unnamed Task"`. -/
def renderRow (t : EmailTask) : HtmlRow :=
  { task := t.name.getD "Unnamed Task", start := t.start, finish := t.finish }

/-- Row list of `format_tasks_to_html` (send_gantt_summary.py lines 17-33):
sort by Start, then render each row in order.  `sort_values` is modelled by
insertion sort; the claims depend only on the key order and the multiset of
rows, which any comparison sort by Start produces. -/
def format_tasks_rows (ts : List EmailTask) : List HtmlRow :=
  (List.insertionSort startLE ts).map renderRow

/-- Model of the view-range selection (app.py lines 212-223, gantt_app.py
lines 192-203): the session's `view_option` string is matched against
`'1W'`, `'1M'`, `'3M'`, and everything else falls to the `'All'` branch. -/
def visibleRange (view_option : String) (today project_start_month project_end : Int) :
    Int × Int :=
  if view_option = "1W" then (today - 1, today + 7)
  else if view_option = "1M" then (today - 1, today + 30)
  else if view_option = "3M" then (today - 1, today + 90)
  else (project_start_month - 7, project_end + 15)

/-- Time-insensitive projection of a processed chart row: everything except
the progress value and the progress-bearing label. -/
def Task.static (t : Task) : String × Int × Int × Int :=
  (t.resource, t.start, t.duration, t.finish)

/-- C1: the progress calculator returns 0 when today precedes start, 0 when
the duration is non-positive, and otherwise
min(((today - start).days + 1) / duration, 1.0) * 100; the result always
lies in [0, 100]. -/
theorem calculate_progress_cases_and_bounds (start duration today : Int) :
    (today < start → calculate_progress start duration today = 0) ∧
    (duration ≤ 0 → calculate_progress start duration today = 0) ∧
    (start ≤ today → 0 < duration →
      calculate_progress start duration today
        = min ((((today - start) + 1 : Int) : ℚ) / (duration : ℚ)) 1 * 100) ∧
    0 ≤ calculate_progress start duration today ∧
    calculate_progress start duration today ≤ 100 := by
  unfold calculate_progress
  by_cases h1 : today < start
  · simp only [if_pos h1]
    exact ⟨fun _ => trivial, fun _ => trivial, fun hs _ => absurd h1 (not_lt.mpr hs),
      le_refl 0, by norm_num⟩
  · simp only [if_neg h1]
    by_cases h2 : duration ≤ 0
    · simp only [if_pos h2]
      exact ⟨fun h => absurd h h1, fun _ => trivial, fun _ hd => absurd h2 (not_le.mpr hd),
        le_refl 0, by norm_num⟩
    · simp only [if_neg h2]
      push_neg at h1 h2
      have hnum : (0 : ℚ) ≤ (((today - start) + 1 : Int) : ℚ) := by
        exact_mod_cast (by omega : (0 : Int) ≤ (today - start) + 1)
      have hden : (0 : ℚ) ≤ (duration : ℚ) := by exact_mod_cast le_of_lt h2
      have hdiv : (0 : ℚ) ≤ (((today - start) + 1 : Int) : ℚ) / (duration : ℚ) :=
        div_nonneg hnum hden
      refine ⟨fun h => absurd h (not_lt.mpr h1), fun h => absurd h (not_le.mpr h2),
        fun _ _ => trivial, ?_, ?_⟩
      · exact mul_nonneg (le_min hdiv (by norm_num)) (by norm_num)
      · have hcap : min ((((today - start) + 1 : Int) : ℚ) / (duration : ℚ)) 1 * 100
            ≤ 1 * 100 :=
          mul_le_mul_of_nonneg_right (min_le_right _ _) (by norm_num)
        linarith

/-- Witness for C1 at the spec round-trip (start 2025-01-01 ≘ 0,
duration 10, today 2025-01-05 ≘ 4 gives 50), a today-before-start input and
a non-positive-duration input. -/
theorem calculate_progress_cases_and_bounds_witness :
    calculate_progress 0 10 4 = 50 ∧ calculate_progress 0 10 (-1) = 0 ∧
    calculate_progress 0 (-3) 4 = 0 := by
  refine ⟨?_, ?_, ?_⟩
  · have h := (calculate_progress_cases_and_bounds 0 10 4).2.2.1 (by norm_num) (by norm_num)
    rw [h]; norm_num
  · exact (calculate_progress_cases_and_bounds 0 10 (-1)).1 (by norm_num)
  · exact (calculate_progress_cases_and_bounds 0 (-3) 4).2.1 (by norm_num)

/-- C6: for a fixed start and positive duration, progress is monotonically
non-decreasing as today advances past start, never exceeds 100, and is
exactly 100 once days_passed reaches the duration. -/
theorem calculate_progress_monotone_capped (start duration t1 t2 : Int)
    (hd : 0 < duration) (h1 : start ≤ t1) (h12 : t1 ≤ t2) :
    calculate_progress start duration t1 ≤ calculate_progress start duration t2 ∧
    calculate_progress start duration t2 ≤ 100 ∧
    (duration ≤ (t2 - start) + 1 → calculate_progress start duration t2 = 100) := by
  have h2 : start ≤ t2 := le_trans h1 h12
  have hδ : (0 : ℚ) < (duration : ℚ) := by exact_mod_cast hd
  unfold calculate_progress
  simp only [if_neg (not_lt.mpr h1), if_neg (not_lt.mpr h2), if_neg (not_le.mpr hd)]
  have hle : (((t1 - start) + 1 : Int) : ℚ) ≤ (((t2 - start) + 1 : Int) : ℚ) := by
    exact_mod_cast (by omega : ((t1 - start) + 1 : Int) ≤ (t2 - start) + 1)
  refine ⟨?_, ?_, ?_⟩
  · refine mul_le_mul_of_nonneg_right (min_le_min ?_ le_rfl) (by norm_num)
    exact (div_le_div_iff_of_pos_right hδ).mpr hle
  · have hcap : min ((((t2 - start) + 1 : Int) : ℚ) / (duration : ℚ)) 1 * 100
        ≤ 1 * 100 :=
      mul_le_mul_of_nonneg_right (min_le_right _ _) (by norm_num)
    linarith
  · intro hreach
    have hone : (1 : ℚ) ≤ (((t2 - start) + 1 : Int) : ℚ) / (duration : ℚ) := by
      rw [le_div_iff₀ hδ, one_mul]
      exact_mod_cast hreach
    rw [min_eq_right hone]
    norm_num

/-- Witness for C6 at start 0, duration 5, today advancing from 2 to 10. -/
theorem calculate_progress_monotone_capped_witness :
    calculate_progress 0 5 2 ≤ calculate_progress 0 5 10 ∧
    calculate_progress 0 5 10 = 100 := by
  have h := calculate_progress_monotone_capped 0 5 2 10 (by norm_num) (by norm_num)
    (by norm_num)
  exact ⟨h.1, h.2.2 (by norm_num)⟩

/-- C3: the chart variants derive finish = start + duration, the email
variant derives finish = start + max(0, duration - 1); for duration ≥ 1 the
chart finish is exactly one day later; and every task produced by the chart
loader carries the chart formula's finish. -/
theorem finish_formula_variants (cols : List String) (rows : List RawRow)
    (today : Int) (s d : Int) :
    deriveFinishChart s d = s + d ∧
    deriveFinishEmail s d = s + max 0 (d - 1) ∧
    (1 ≤ d → deriveFinishChart s d = deriveFinishEmail s d + 1) ∧
    (∀ ts, load_data cols rows today = .ok ts →
      ∀ t ∈ ts, t.finish = deriveFinishChart t.start t.duration) := by
  refine ⟨rfl, rfl, fun hd => ?_, fun ts h t ht => ?_⟩
  · unfold deriveFinishChart deriveFinishEmail
    rw [max_eq_right (by omega : (0 : Int) ≤ d - 1)]
    omega
  · unfold load_data at h
    split at h
    · dsimp only at h
      split at h
      · simp at h
      · split at h
        · rw [LoadResult.ok.injEq] at h
          subst h
          rcases List.mem_map.mp ht with ⟨r, _, rfl⟩
          rfl
        · simp at h
    · simp at h

/-- Witness for C3: the one-day offset at duration 5, and the finish field
of the task produced by the chart loader on a concrete one-row file. -/
theorem finish_formula_variants_witness :
    deriveFinishChart 0 5 = deriveFinishEmail 0 5 + 1 ∧
    ({ task := progressLabel (some "A") (calculate_progress 3 4 0),
       resource := cleanupCategory (some "C"),
       start := 3, duration := 4, finish := deriveFinishChart 3 4,
       progress := calculate_progress 3 4 0 } : Task).finish
      = deriveFinishChart 3 4 := by
  have h := finish_formula_variants requiredCols
    [⟨some "A", some "C", Cell.date 3, Cell.num 4⟩] 0 0 5
  refine ⟨h.2.2.1 (by norm_num), ?_⟩
  exact h.2.2.2
    [{ task := progressLabel (some "A") (calculate_progress 3 4 0),
       resource := cleanupCategory (some "C"),
       start := 3, duration := 4, finish := deriveFinishChart 3 4,
       progress := calculate_progress 3 4 0 }] rfl _ (List.mem_singleton.mpr rfl)

/-- C4: the visible-range computation returns (today - 1, today + 7) for the
week preset `'1W'`, (today - 1, today + 30) for the month preset `'1M'`,
(today - 1, today + 90) for the quarter preset `'3M'`, and, on the default
`'All'` branch, (first-of-month of the earliest start minus 7 days, latest
finish plus 15 days); for the week preset at today = 2025-06-10 the range
is (2025-06-09, 2025-06-17). -/
theorem visible_range_presets (today pm pe s : Int) :
    visibleRange "1W" today pm pe = (today - 1, today + 7) ∧
    visibleRange "1M" today pm pe = (today - 1, today + 30) ∧
    visibleRange "3M" today pm pe = (today - 1, today + 90) ∧
    visibleRange "All" today (firstOfMonth s) pe = (firstOfMonth s - 7, pe + 15) ∧
    firstOfMonth (daysFromCivil 2025 6 10) = daysFromCivil 2025 6 1 ∧
    visibleRange "1W" (daysFromCivil 2025 6 10) pm pe
      = (daysFromCivil 2025 6 9, daysFromCivil 2025 6 17) := by
  refine ⟨rfl, rfl, rfl, rfl, by decide, ?_⟩
  have h0 : visibleRange "1W" (daysFromCivil 2025 6 10) pm pe
      = (daysFromCivil 2025 6 10 - 1, daysFromCivil 2025 6 10 + 7) := rfl
  rw [h0]
  decide

/-- C5: the report bucketer anchors the week on Monday (start_of_week =
today minus today's weekday, end_of_week = start_of_week + 6) and each
bucket holds exactly the tasks satisfying its predicate; a task with
start = finish = 2025-06-09 at today = 2025-06-12 is in "active this week"
and "starting this week" but not "active today". -/
theorem report_buckets_spec (df : List EmailTask) (today : Int) (t : EmailTask) :
    startOfWeek today = today - weekday today ∧
    endOfWeek today = startOfWeek today + 6 ∧
    (t ∈ tasks_starting_today df today ↔ t ∈ df ∧ t.start = today) ∧
    (t ∈ tasks_ending_today df today ↔ t ∈ df ∧ t.finish = today) ∧
    (t ∈ tasks_active_today df today ↔ t ∈ df ∧ t.start ≤ today ∧ today ≤ t.finish) ∧
    (t ∈ tasks_starting_this_week df today ↔
      t ∈ df ∧ startOfWeek today ≤ t.start ∧ t.start ≤ endOfWeek today) ∧
    (t ∈ tasks_ending_this_week df today ↔
      t ∈ df ∧ startOfWeek today ≤ t.finish ∧ t.finish ≤ endOfWeek today) ∧
    (t ∈ tasks_active_this_week df today ↔
      t ∈ df ∧ t.start ≤ endOfWeek today ∧ startOfWeek today ≤ t.finish) ∧
    ((⟨some "T", daysFromCivil 2025 6 9, 1, daysFromCivil 2025 6 9⟩ : EmailTask) ∈
        tasks_active_this_week
          [⟨some "T", daysFromCivil 2025 6 9, 1, daysFromCivil 2025 6 9⟩]
          (daysFromCivil 2025 6 12) ∧
      (⟨some "T", daysFromCivil 2025 6 9, 1, daysFromCivil 2025 6 9⟩ : EmailTask) ∈
        tasks_starting_this_week
          [⟨some "T", daysFromCivil 2025 6 9, 1, daysFromCivil 2025 6 9⟩]
          (daysFromCivil 2025 6 12) ∧
      (⟨some "T", daysFromCivil 2025 6 9, 1, daysFromCivil 2025 6 9⟩ : EmailTask) ∉
        tasks_active_today
          [⟨some "T", daysFromCivil 2025 6 9, 1, daysFromCivil 2025 6 9⟩]
          (daysFromCivil 2025 6 12)) := by
  refine ⟨rfl, rfl, ?_, ?_, ?_, ?_, ?_, ?_, by decide⟩
  · simp [tasks_starting_today, List.mem_filter]
  · simp [tasks_ending_today, List.mem_filter]
  · simp [tasks_active_today, List.mem_filter, and_assoc]
  · simp [tasks_starting_this_week, List.mem_filter, and_assoc]
  · simp [tasks_ending_this_week, List.mem_filter, and_assoc]
  · simp [tasks_active_this_week, List.mem_filter, and_assoc]

/-- Witness for C5: a task starting exactly on `today` sits in the
starting-today bucket. -/
theorem report_buckets_spec_witness :
    (⟨some "T", 5, 1, 5⟩ : EmailTask) ∈
      tasks_starting_today [⟨some "T", 5, 1, 5⟩] 5 :=
  ((report_buckets_spec [⟨some "T", 5, 1, 5⟩] 5 ⟨some "T", 5, 1, 5⟩).2.2.1).mpr
    ⟨List.mem_singleton.mpr rfl, rfl⟩

/-- C7: the chart loader reports a missing required column as the
missing-columns error; when all required columns are present and every row
is dropped for lacking start or duration it reports the distinct
no-valid-tasks condition; and a file without the Days column always yields
the missing-columns error, never the no-valid-tasks condition. -/
theorem loader_error_conditions (cols : List String) (rows : List RawRow) (today : Int) :
    ((∃ c ∈ requiredCols, c ∉ cols) → load_data cols rows today = .missingColumns) ∧
    ((∀ c ∈ requiredCols, c ∈ cols) →
      ((rows.filter (fun r => !r.allBlank)).filter
          (fun r => r.start.present && r.days.present)) = [] →
      load_data cols rows today = .noValidTasks) ∧
    ("Days" ∉ cols →
      load_data cols rows today = .missingColumns ∧
      load_data cols rows today ≠ .noValidTasks) := by
  have hall : (requiredCols.all (fun c => cols.contains c) = true) ↔
      ∀ c ∈ requiredCols, c ∈ cols := by
    simp
  have hm : ¬ requiredCols.all (fun c => cols.contains c) = true →
      load_data cols rows today = .missingColumns := by
    intro hne
    unfold load_data
    rw [if_neg hne]
  refine ⟨fun hmiss => ?_, fun hcols hempty => ?_, fun hd => ?_⟩
  · refine hm (fun hc => ?_)
    rcases hmiss with ⟨c, hc1, hc2⟩
    exact hc2 (hall.mp hc c hc1)
  · unfold load_data
    rw [if_pos (hall.mpr hcols)]
    dsimp only
    rw [hempty]
    rfl
  · have hne : ¬ requiredCols.all (fun c => cols.contains c) = true := by
      intro hc
      exact hd (hall.mp hc "Days" (by simp [requiredCols]))
    refine ⟨hm hne, ?_⟩
    rw [hm hne]
    simp

/-- Witness for C7: a three-column file (no Days) hits the missing-columns
error; a complete header with zero rows hits the no-valid-tasks condition. -/
theorem loader_error_conditions_witness :
    load_data ["Milestone description", "Category", "Start"] [] 0 = .missingColumns ∧
    load_data ["Milestone description", "Category", "Start"] [] 0 ≠ .noValidTasks ∧
    load_data requiredCols [] 0 = .noValidTasks := by
  have h := loader_error_conditions ["Milestone description", "Category", "Start"] [] 0
  have h2 := loader_error_conditions requiredCols [] 0
  exact ⟨(h.2.2 (by decide)).1, (h.2.2 (by decide)).2, h2.2.1 (by decide) rfl⟩

/-- C10: the rendered report table lists its rows in non-decreasing order of
start date, renders exactly one row per task (a permutation of the bucket's
rendered tasks), and a task with a missing name appears with the
"Unnamed Task" placeholder rather than being dropped. -/
theorem format_tasks_rows_spec (ts : List EmailTask) :
    List.Sorted (fun a b : HtmlRow => a.start ≤ b.start) (format_tasks_rows ts) ∧
    (format_tasks_rows ts).Perm (ts.map renderRow) ∧
    (∀ t ∈ ts, t.name = none →
      ({ task := "Unnamed Task", start := t.start, finish := t.finish } : HtmlRow)
        ∈ format_tasks_rows ts) := by
  refine ⟨?_, ?_, fun t ht hn => ?_⟩
  · unfold format_tasks_rows
    exact (List.sorted_insertionSort startLE ts).map renderRow (fun a b h => h)
  · unfold format_tasks_rows
    exact (List.perm_insertionSort startLE ts).map renderRow
  · unfold format_tasks_rows
    have hmem : renderRow t ∈ List.map renderRow (List.insertionSort startLE ts) :=
      List.mem_map_of_mem renderRow
        (((List.perm_insertionSort startLE ts).mem_iff).mpr ht)
    simpa [renderRow, hn] using hmem

/-- Witness for C10: a one-task bucket with a missing name renders the
placeholder row. -/
theorem format_tasks_rows_spec_witness :
    ({ task := "Unnamed Task", start := 0, finish := 2 } : HtmlRow)
      ∈ format_tasks_rows [⟨none, 0, 3, 2⟩] :=
  (format_tasks_rows_spec [⟨none, 0, 3, 2⟩]).2.2 ⟨none, 0, 3, 2⟩
    (List.mem_singleton.mpr rfl) rfl

/-- C2 counterexample: in the chart loader a surviving task with raw
duration -5 and start day 100 gets finish day 95, strictly before its
start, because no variant except the email one clamps the duration. -/
theorem finish_ge_start_counterexample :
    ((load_data requiredCols [⟨some "A", some "Cat", Cell.date 100, Cell.num (-5)⟩]
        100).tasks.map (fun t => (t.start, t.finish))) = [(100, 95)] ∧
    (95 : Int) < 100 :=
  ⟨rfl, by norm_num⟩

/-- C2 amended: finish ≥ start holds unconditionally in the email variant
(whose duration is clamped via max(0, days - 1)); in the chart variants
finish = start + duration, so finish ≥ start exactly when the raw duration
is non-negative. -/
theorem finish_ge_start_amended (cols : List String) (rows : List RawRow) (today : Int) :
    (∀ ts, create_task_report_tasks cols rows = some ts →
      ∀ t ∈ ts, t.start ≤ t.finish) ∧
    (∀ ts, load_data cols rows today = .ok ts →
      ∀ t ∈ ts, 0 ≤ t.duration → t.start ≤ t.finish) := by
  constructor
  · intro ts h t ht
    unfold create_task_report_tasks at h
    split at h
    · rw [Option.some.injEq] at h
      subst h
      rcases List.mem_filterMap.mp ht with ⟨r, _, hr⟩
      rcases r with ⟨n, c, sc, dc⟩
      cases sc <;> cases dc <;>
        simp only [parseEmailRow, Cell.coerceDate, Cell.coerceNum,
          Option.some.injEq, reduceCtorEq] at hr
      subst hr
      dsimp only
      unfold deriveFinishEmail
      omega
    · simp at h
  · intro ts h t ht hdur
    unfold load_data at h
    split at h
    · dsimp only at h
      split at h
      · simp at h
      · split at h
        · rw [LoadResult.ok.injEq] at h
          subst h
          rcases List.mem_map.mp ht with ⟨r, _, rfl⟩
          dsimp only at hdur ⊢
          unfold deriveFinishChart
          omega
        · simp at h
    · simp at h

/-- Witness for C2 amended: the email variant's derived task for a one-row
file with duration 3 satisfies start ≤ finish. -/
theorem finish_ge_start_amended_witness :
    ({ name := some "A", start := 0, days := 3,
       finish := deriveFinishEmail 0 3 } : EmailTask).start
      ≤ ({ name := some "A", start := 0, days := 3,
           finish := deriveFinishEmail 0 3 } : EmailTask).finish :=
  (finish_ge_start_amended relevantColsEmail
      [⟨some "A", none, Cell.date 0, Cell.num 3⟩] 0).1
    [{ name := some "A", start := 0, days := 3, finish := deriveFinishEmail 0 3 }]
    rfl _ (List.mem_singleton.mpr rfl)

/-- C8 counterexample: in the chart loader a row with an unparseable start
date makes the strict conversion raise, the whole load lands in the generic
error branch, and the well-formed row of the same file is not loaded. -/
theorem malformed_field_counterexample :
    load_data requiredCols
      [⟨some "B", some "C", Cell.malformed, Cell.num 2⟩,
       ⟨some "A", some "C", Cell.date 0, Cell.num 2⟩] 0 = .loadError ∧
    (load_data requiredCols
      [⟨some "B", some "C", Cell.malformed, Cell.num 2⟩,
       ⟨some "A", some "C", Cell.date 0, Cell.num 2⟩] 0).tasks = [] :=
  ⟨rfl, rfl⟩

/-- C8 amended: only the email variant coerces a malformed start or duration
to a missing value and drops the row individually, keeping every other
parseable row; in the chart variants a malformed value among the surviving
rows aborts the entire load with the generic error (empty result). -/
theorem malformed_field_amended (cols : List String) (rows : List RawRow)
    (r : RawRow) (t : EmailTask) :
    (r ∈ rows → parseEmailRow r = some t →
      relevantColsEmail.all (fun c => cols.contains c) = true →
      ∀ ts, create_task_report_tasks cols rows = some ts → t ∈ ts) ∧
    (∀ n c dc, parseEmailRow ⟨n, c, Cell.malformed, dc⟩ = none) ∧
    (∀ n c sc, parseEmailRow ⟨n, c, sc, Cell.malformed⟩ = none) ∧
    ((∃ r2 ∈ (rows.filter (fun x => !x.allBlank)).filter
        (fun x => x.start.present && x.days.present), RawRow.convertible r2 = false) →
      requiredCols.all (fun c => cols.contains c) = true →
      ∀ today, load_data cols rows today = .loadError) := by
  refine ⟨fun hr hp hcols ts hts => ?_, fun n c dc => rfl, fun n c sc => ?_, ?_⟩
  · unfold create_task_report_tasks at hts
    rw [if_pos hcols, Option.some.injEq] at hts
    subst hts
    apply List.mem_filterMap.mpr
    refine ⟨r, ?_, hp⟩
    have hchar : (∃ s, r.start = Cell.date s) ∧ (∃ d, r.days = Cell.num d) := by
      rcases r with ⟨n, c, sc, dc⟩
      cases sc <;> cases dc <;>
          simp [parseEmailRow, Cell.coerceDate, Cell.coerceNum] at hp
      exact ⟨⟨_, rfl⟩, ⟨_, rfl⟩⟩
    rcases hchar with ⟨⟨s, hs⟩, ⟨d2, hd2⟩⟩
    refine List.mem_filter.mpr ⟨List.mem_filter.mpr ⟨hr, ?_⟩, ?_⟩
    · simp [RawRow.allBlank, hs, Cell.present]
    · simp [hs, hd2, Cell.present]
  · cases sc <;> rfl
  · rintro ⟨r2, hr2, hconv⟩ hcols today
    unfold load_data
    rw [if_pos hcols]
    dsimp only
    have hne : ¬ ((rows.filter (fun x => !x.allBlank)).filter
        (fun x => x.start.present && x.days.present)).isEmpty = true := by
      simp only [List.isEmpty_iff]
      exact List.ne_nil_of_mem hr2
    rw [if_neg hne]
    have hnall : ¬ ((rows.filter (fun x => !x.allBlank)).filter
        (fun x => x.start.present && x.days.present)).all RawRow.convertible = true := by
      simp only [List.all_eq_true, not_forall]
      exact ⟨r2, hr2, by simp [hconv]⟩
    rw [if_neg hnall]

/-- Witness for C8 amended: in a file holding one malformed row and one good
row, the email variant still loads the good row and drops the malformed
one. -/
theorem malformed_field_amended_witness :
    ({ name := some "A", start := 0, days := 2,
       finish := deriveFinishEmail 0 2 } : EmailTask) ∈
      [({ name := some "A", start := 0, days := 2,
          finish := deriveFinishEmail 0 2 } : EmailTask)] ∧
    parseEmailRow ⟨some "B", none, Cell.malformed, Cell.num 2⟩ = none := by
  have h := malformed_field_amended relevantColsEmail
    [⟨some "B", none, Cell.malformed, Cell.num 2⟩,
     ⟨some "A", none, Cell.date 0, Cell.num 2⟩]
    ⟨some "A", none, Cell.date 0, Cell.num 2⟩
    { name := some "A", start := 0, days := 2, finish := deriveFinishEmail 0 2 }
  exact ⟨h.1 (by decide) rfl (by decide) _ rfl, h.2.1 (some "B") none (Cell.num 2)⟩

/-- C9 counterexample: two runs of the cached loader over the same file
content but different values of today produce different tables; the
progress column computed inside the cached function changes from 0 to
100. -/
theorem cache_today_counterexample :
    ((load_data requiredCols [⟨some "A", some "C", Cell.date 0, Cell.num 10⟩]
        (-1)).tasks.map Task.progress) = [0] ∧
    ((load_data requiredCols [⟨some "A", some "C", Cell.date 0, Cell.num 10⟩]
        9).tasks.map Task.progress) = [100] ∧
    load_data requiredCols [⟨some "A", some "C", Cell.date 0, Cell.num 10⟩] (-1)
      ≠ load_data requiredCols [⟨some "A", some "C", Cell.date 0, Cell.num 10⟩] 9 := by
  have h1 : ((load_data requiredCols [⟨some "A", some "C", Cell.date 0, Cell.num 10⟩]
      (-1)).tasks.map Task.progress) = [0] := rfl
  have h2 : ((load_data requiredCols [⟨some "A", some "C", Cell.date 0, Cell.num 10⟩]
      9).tasks.map Task.progress) = [calculate_progress 0 10 9] := rfl
  have h3 : calculate_progress 0 10 9 = 100 := by
    norm_num [calculate_progress]
  refine ⟨h1, by rw [h2, h3], fun h => ?_⟩
  rw [h] at h1
  rw [h2, h3] at h1
  exact absurd h1 (by norm_num)

/-- C9 amended: the cached table is a function of file content and today
together: its time-insensitive fields (category, start, duration, finish)
are identical across runs over the same content regardless of today, while
the progress value and progress-bearing label computed inside the cached
function do depend on today. -/
theorem cache_static_fields_today_independent (cols : List String)
    (rows : List RawRow) (t1 t2 : Int) :
    (load_data cols rows t1).mapTasks Task.static
      = (load_data cols rows t2).mapTasks Task.static := by
  unfold load_data
  split
  · dsimp only
    split
    · rfl
    · split
      · unfold LoadResult.mapTasks
        refine congrArg LoadResult.ok ?_
        rw [List.map_map, List.map_map]
        exact List.map_congr_left (fun r _ => rfl)
      · rfl
  · rfl

end SmarTriage
